import Mathlib

/-!
Verification of the eyesofsmartice surveillance appliance core.

Each definition below is a shallow embedding of a function of the Python
source, named after it where Lean allows.  Time is modelled in integer
seconds (wall clock) and integer minutes since local midnight; dates use
their YYYYMMDD digits read as a natural number, so that numeric order
coincides with the string order the source relies on.
-/

namespace EyesOfSmartIce

/-! ## Cloud replicator (scripts/database_sync/sync_to_supabase.py) -/

namespace CloudSync

/-- Records per batch upload (the BATCH_SIZE constant of sync_to_supabase.py). -/
def BATCH_SIZE : Nat := 1000

/-- A row of the division_states or table_states local event table, restricted
to the columns that the replicator reads and writes: the integer primary key,
the synced_to_cloud bit, and the created_at timestamp (seconds). -/
structure EventRow where
  rowId : Nat
  syncedToCloud : Bool
  createdAt : Int
deriving DecidableEq

/-- The WHERE clause of the two DELETE statements in
SupabaseSyncManager.cleanup_synced_data: a row is deleted exactly when
synced_to_cloud = 1 and created_at is strictly before now minus the retention
period (retention_hours hours, here in seconds). -/
def cleanupDeletes (now retentionHours : Int) (r : EventRow) : Bool :=
  r.syncedToCloud && decide (r.createdAt < now - retentionHours * 3600)

/-- Effect of one of cleanup_synced_data's DELETE statements on one event
table: rows matching the DELETE predicate are removed, all others kept. -/
def cleanupTable (now retentionHours : Int) (tbl : List EventRow) : List EventRow :=
  tbl.filter (fun r => !cleanupDeletes now retentionHours r)

/-- The two local event tables touched by cleanup_synced_data. -/
structure EventDB where
  divisionStates : List EventRow
  tableStates : List EventRow
deriving DecidableEq

/-- SupabaseSyncManager.cleanup_synced_data (non-dry-run): prune both event
tables with the same DELETE predicate, then commit. -/
def cleanup_synced_data (now retentionHours : Int) (db : EventDB) : EventDB :=
  { divisionStates := cleanupTable now retentionHours db.divisionStates
  , tableStates := cleanupTable now retentionHours db.tableStates }

/-- The consecutive slices records[i : i + n] walked by the batch loop of
SupabaseSyncManager._upload_in_batches, peeled with an explicit fuel (the
list length suffices) so the recursion is structural. -/
def toBatchesGo {α : Type} (n : Nat) : Nat → List α → List (List α)
  | _, [] => []
  | 0, l => [l]
  | fuel + 1, a :: l => (a :: l).take n :: toBatchesGo n fuel ((a :: l).drop n)

/-- The batches records[0 : n], records[n : 2 n], ... of the upload loop. -/
def toBatches {α : Type} (n : Nat) (l : List α) : List (List α) :=
  toBatchesGo n l.length l

/-- The mutable counters of one _upload_in_batches call, together with the
set of local primary keys the call has passed to _mark_batch_synced (the ids
whose rows got UPDATE synced_to_cloud = 1). -/
structure UploadState where
  totalUploaded : Nat
  errors : Nat
  markedIds : List Nat
deriving DecidableEq

/-- One iteration of the batch loop in _upload_in_batches: attempt the cloud
insert of the batch; on success mark the whole batch synced locally (when a
mark table was given) and add the batch length to the running total; on an
exception increment the error counter and fall through to the next batch. -/
def uploadBatchStep (cloudAccepts : List EventRow → Bool) (markSynced : Bool)
    (s : UploadState) (batch : List EventRow) : UploadState :=
  if cloudAccepts batch then
    { totalUploaded := s.totalUploaded + batch.length
    , errors := s.errors
    , markedIds := s.markedIds ++ (if markSynced then batch.map EventRow.rowId else []) }
  else
    { s with errors := s.errors + 1 }

/-- SupabaseSyncManager._upload_in_batches (non-dry-run): fold the batch loop
over the BATCH_SIZE slices of the records list, starting from zeroed
counters. -/
def upload_in_batches (cloudAccepts : List EventRow → Bool) (markSynced : Bool)
    (records : List EventRow) : UploadState :=
  (toBatches BATCH_SIZE records).foldl (uploadBatchStep cloudAccepts markSynced) ⟨0, 0, []⟩

/-- SupabaseSyncManager._mark_batch_synced seen from the local table: the
UPDATE sets synced_to_cloud = 1 on exactly the rows whose primary key is
among the extracted ids, leaving every other row unchanged. -/
def markSyncedRows (ids : List Nat) (tbl : List EventRow) : List EventRow :=
  tbl.map (fun r => if r.rowId ∈ ids then { r with syncedToCloud := true } else r)

theorem toBatchesGo_flatten {α : Type} (n : Nat) :
    ∀ (fuel : Nat) (l : List α), (toBatchesGo n fuel l).flatten = l := by
  intro fuel
  induction fuel with
  | zero => intro l; cases l <;> simp [toBatchesGo]
  | succ fuel ih =>
    intro l
    cases l with
    | nil => simp [toBatchesGo]
    | cons a t => simp [toBatchesGo, ih]

theorem toBatches_flatten {α : Type} (n : Nat) (l : List α) :
    (toBatches n l).flatten = l :=
  toBatchesGo_flatten n l.length l

/-- An element of one of the batches is an element of the original list. -/
theorem mem_of_mem_toBatches {α : Type} {n : Nat} {l : List α} {b : List α}
    (hb : b ∈ toBatches n l) {x : α} (hx : x ∈ b) : x ∈ l := by
  have : x ∈ (toBatches n l).flatten := List.mem_flatten.mpr ⟨b, hb, hx⟩
  rwa [toBatches_flatten] at this

/-- Under a duplicate-free key column, a key occurring in two batches forces
the batches to be the same slice. -/
theorem toBatchesGo_mem_unique {α : Type} (f : α → Nat) (n : Nat) :
    ∀ (fuel : Nat) (l : List α), (l.map f).Nodup →
      ∀ b b2, b ∈ toBatchesGo n fuel l → b2 ∈ toBatchesGo n fuel l →
      ∀ x, x ∈ b.map f → x ∈ b2.map f → b = b2 := by
  intro fuel
  induction fuel with
  | zero =>
    intro l _ b b2 hb hb2 x _ _
    cases l with
    | nil => simp [toBatchesGo] at hb
    | cons a t =>
      simp [toBatchesGo] at hb hb2
      rw [hb, hb2]
  | succ fuel ih =>
    intro l hnodup b b2 hb hb2 x hxb hxb2
    cases l with
    | nil => simp [toBatchesGo] at hb
    | cons a t =>
      have hsplit : ((a :: t).take n).map f ++ ((a :: t).drop n).map f
          = (a :: t).map f := by
        rw [← List.map_append, List.take_append_drop]
      have hnd : (((a :: t).take n).map f ++ ((a :: t).drop n).map f).Nodup := by
        rw [hsplit]; exact hnodup
      have hdisj := (List.nodup_append.mp hnd).2.2
      have hmemdrop : ∀ c, c ∈ toBatchesGo n fuel ((a :: t).drop n) →
          ∀ y, y ∈ c.map f → y ∈ ((a :: t).drop n).map f := by
        intro c hc y hy
        rcases List.mem_map.mp hy with ⟨z, hz, rfl⟩
        have hz' : z ∈ (toBatchesGo n fuel ((a :: t).drop n)).flatten :=
          List.mem_flatten.mpr ⟨c, hc, hz⟩
        rw [toBatchesGo_flatten] at hz'
        exact List.mem_map.mpr ⟨z, hz', rfl⟩
      simp only [toBatchesGo, List.mem_cons] at hb hb2
      rcases hb with rfl | hb <;> rcases hb2 with rfl | hb2
      · rfl
      · exact absurd (hmemdrop b2 hb2 x hxb2) (hdisj hxb)
      · exact absurd (hmemdrop b hb x hxb) (hdisj hxb2)
      · have hndrop : (((a :: t).drop n).map f).Nodup := (List.nodup_append.mp hnd).2.1
        exact ih ((a :: t).drop n) hndrop b b2 hb hb2 x hxb hxb2

theorem toBatches_mem_unique {α : Type} (f : α → Nat) {n : Nat} {l : List α}
    (hnodup : (l.map f).Nodup) {b b2 : List α}
    (hb : b ∈ toBatches n l) (hb2 : b2 ∈ toBatches n l)
    {x : Nat} (hxb : x ∈ b.map f) (hxb2 : x ∈ b2.map f) : b = b2 :=
  toBatchesGo_mem_unique f n l.length l hnodup b b2 hb hb2 x hxb hxb2

/-- The ids marked synced by the batch loop are exactly the ids of the
batches the cloud accepted, in order. -/
theorem uploadFold_markedIds (cloud : List EventRow → Bool) :
    ∀ (bs : List (List EventRow)) (s0 : UploadState),
      (bs.foldl (uploadBatchStep cloud true) s0).markedIds
        = s0.markedIds
            ++ ((bs.filter cloud).map (fun b => b.map EventRow.rowId)).flatten := by
  intro bs
  induction bs with
  | nil => intro s0; simp
  | cons b bs ih =>
    intro s0
    by_cases hc : cloud b
    · simp [uploadBatchStep, hc, ih]
    · simp [uploadBatchStep, hc, ih]

/-- The error counter counts exactly the rejected batches. -/
theorem uploadFold_errors (cloud : List EventRow → Bool) (mark : Bool) :
    ∀ (bs : List (List EventRow)) (s0 : UploadState),
      (bs.foldl (uploadBatchStep cloud mark) s0).errors
        = s0.errors + (bs.filter (fun b => !cloud b)).length := by
  intro bs
  induction bs with
  | nil => intro s0; simp
  | cons b bs ih =>
    intro s0
    by_cases hc : cloud b
    · simp [uploadBatchStep, hc, ih]
    · simp [uploadBatchStep, hc, ih]
      omega

/-- The uploaded total sums the lengths of exactly the accepted batches. -/
theorem uploadFold_total (cloud : List EventRow → Bool) (mark : Bool) :
    ∀ (bs : List (List EventRow)) (s0 : UploadState),
      (bs.foldl (uploadBatchStep cloud mark) s0).totalUploaded
        = s0.totalUploaded + ((bs.filter cloud).map List.length).sum := by
  intro bs
  induction bs with
  | nil => intro s0; simp
  | cons b bs ih =>
    intro s0
    by_cases hc : cloud b
    · simp [uploadBatchStep, hc, ih]
      omega
    · simp [uploadBatchStep, hc, ih]

/-- A row of the local sessions table as the replicator reads it: the
sessions table has no synced_to_cloud column, only a created_at timestamp
(and payload columns the selection does not inspect). -/
structure SessionRow where
  sessionId : Nat
  createdAt : Int
deriving DecidableEq

/-- WHERE clause of sync_sessions: WHERE 1=1, plus created_at >= cutoff when
a cutoff time is given (hourly mode).  There is no synced_to_cloud
condition. -/
def sessionSelected (r : SessionRow) (cutoff : Option Int) : Bool :=
  match cutoff with
  | none => true
  | some c => decide (c ≤ r.createdAt)

/-- WHERE clause of sync_videos: identical shape to sync_sessions (WHERE 1=1
plus the optional created_at cutoff), again with no synced_to_cloud
condition. -/
def videoSelected (createdAt : Int) (cutoff : Option Int) : Bool :=
  match cutoff with
  | none => true
  | some c => decide (c ≤ createdAt)

/-- WHERE clause of sync_division_states: synced_to_cloud = 0, plus the
optional created_at cutoff. -/
def divisionStateSelected (r : EventRow) (cutoff : Option Int) : Bool :=
  !r.syncedToCloud &&
    (match cutoff with
     | none => true
     | some c => decide (c ≤ r.createdAt))

/-- WHERE clause of sync_table_states: synced_to_cloud = 0, plus the optional
created_at cutoff. -/
def tableStateSelected (r : EventRow) (cutoff : Option Int) : Bool :=
  !r.syncedToCloud &&
    (match cutoff with
     | none => true
     | some c => decide (c ≤ r.createdAt))

/-- The 2-hour lookback used by sync_hourly: cutoff_time = now - 2 hours. -/
def hourlyCutoff (now : Int) : Int := now - 2 * 3600

/-- The two local tables relevant to replication re-selection, as sync_full
walks them. -/
structure SyncDB where
  sessions : List SessionRow
  divisionStates : List EventRow
deriving DecidableEq

/-- The column list of sync_division_states' SELECT: the primary key
division_state_id is not among the selected columns. -/
def divisionSelectColumns : List String :=
  [ "session_id", "camera_id", "location_id", "frame_number"
  , "timestamp_video", "timestamp_recorded", "state"
  , "walking_area_waiters", "service_area_waiters", "total_staff" ]

/-- The column list of sync_table_states' SELECT: the primary key
table_state_id is not among the selected columns. -/
def tableSelectColumns : List String :=
  [ "session_id", "camera_id", "location_id", "frame_number"
  , "timestamp_video", "timestamp_recorded", "table_id", "state"
  , "customers_count", "waiters_count" ]

/-- SupabaseSyncManager._mark_batch_synced for division_states, with the
producing SELECT's column list made explicit.  The id extraction
(record[division_state_id] on each sqlite3.Row of the batch) raises
IndexError on the first record when the SELECT did not include that column;
an empty batch reaches the UPDATE with an empty IN list, a SQLite syntax
error (the upload loop only ever passes nonempty slices).  On success the
UPDATE marks exactly the extracted ids synced. -/
def mark_batch_synced_division (selectCols : List String)
    (batch tbl : List EventRow) : Except Unit (List EventRow) :=
  if batch.isEmpty then Except.error ()
  else if "division_state_id" ∈ selectCols then
    Except.ok (markSyncedRows (batch.map EventRow.rowId) tbl)
  else Except.error ()

/-- SupabaseSyncManager._mark_batch_synced for table_states, with the
producing SELECT's column list made explicit; record[table_state_id] raises
the same way. -/
def mark_batch_synced_table (selectCols : List String)
    (batch tbl : List EventRow) : Except Unit (List EventRow) :=
  if batch.isEmpty then Except.error ()
  else if "table_state_id" ∈ selectCols then
    Except.ok (markSyncedRows (batch.map EventRow.rowId) tbl)
  else Except.error ()

/-- The _upload_in_batches loop as run for sync_division_states, with the
local table threaded through the marking step: a successful cloud insert is
followed by _mark_batch_synced inside the same try, so an exception raised
there (the IndexError above) is caught by the per-batch except, increments
the error counter, leaves the table unchanged, and the loop continues with
the next batch. -/
def uploadDivisionBatches (cloudAccepts : List EventRow → Bool)
    (selectCols : List String) :
    List (List EventRow) → List EventRow → Nat → List EventRow × Nat
  | [], tbl, errors => (tbl, errors)
  | b :: bs, tbl, errors =>
    if cloudAccepts b then
      match mark_batch_synced_division selectCols b tbl with
      | Except.ok tbl2 => uploadDivisionBatches cloudAccepts selectCols bs tbl2 errors
      | Except.error _ => uploadDivisionBatches cloudAccepts selectCols bs tbl (errors + 1)
    else
      uploadDivisionBatches cloudAccepts selectCols bs tbl (errors + 1)

/-- One sync_full run against a cloud that accepts every batch: the rows the
sessions and division queries select for upload, and the local database
afterwards.  sync_sessions marks nothing (_mark_batch_synced returns early
for tables without a synced_to_cloud column); sync_division_states uploads
its selection in batches and attempts to mark each batch, with the marking
outcome determined by the columns its SELECT produced. -/
def sync_full (db : SyncDB) : (List SessionRow × List EventRow) × SyncDB :=
  let selS := db.sessions.filter (fun r => sessionSelected r none)
  let selD := db.divisionStates.filter (fun r => divisionStateSelected r none)
  let uploadD := uploadDivisionBatches (fun _ => true) divisionSelectColumns
      (toBatches BATCH_SIZE selD) db.divisionStates 0
  ((selS, selD), { sessions := db.sessions, divisionStates := uploadD.1 })

theorem cleanupTable_deleted (now retentionHours : Int) (tbl : List EventRow)
    (r : EventRow) (hin : r ∈ tbl) (hout : r ∉ cleanupTable now retentionHours tbl) :
    r.syncedToCloud = true ∧ now - r.createdAt > retentionHours * 3600 := by
  by_cases hdel : cleanupDeletes now retentionHours r
  · unfold cleanupDeletes at hdel
    simp only [Bool.and_eq_true, decide_eq_true_eq] at hdel
    exact ⟨hdel.1, by omega⟩
  · exact absurd (List.mem_filter.mpr ⟨hin, by simp [hdel]⟩) hout

end CloudSync

/-! ## Capture recorder (scripts/video_capture/capture_rtsp_streams.py) -/

namespace Capture

def SEGMENT_DURATION_SECONDS : Nat := 60

def FFMPEG_TIMEOUT : Nat := 10000000

def FFMPEG_ANALYZEDURATION : Nat := 5000000

def FFMPEG_PROBESIZE : Nat := 5000000

/-- The argument list DirectFFmpegCapture._start_ffmpeg_segment builds for
the capture subprocess (v5.2.0+ flags, stream copy enabled).  The -t
duration passed is self.segment_duration. -/
def ffmpeg_cmd (rtspTransport rtspUrl : String) (segmentDuration : Nat)
    (outputPath : String) : List String :=
  [ "ffmpeg"
  , "-rtsp_transport", rtspTransport
  , "-stimeout", toString FFMPEG_TIMEOUT
  , "-analyzeduration", toString FFMPEG_ANALYZEDURATION
  , "-probesize", toString FFMPEG_PROBESIZE
  , "-i", rtspUrl
  , "-c:v", "copy"
  , "-c:a", "copy"
  , "-movflags", "+frag_keyframe+empty_moov"
  , "-t", toString segmentDuration
  , "-y", outputPath ]

/-- One iteration of DirectFFmpegCapture.capture_video's recording loop:
none when the loop exits because elapsed_total has reached duration_seconds,
otherwise the -t seconds the spawned subprocess is configured to stop after.
The loop body computes
current_segment_duration = min(segment_duration, remaining_duration), but
_start_ffmpeg_segment receives only the output path and segment number and
puts self.segment_duration after -t, so the computed minimum is returned by
no path. -/
def captureIterationTimeLimit (segmentDuration durationSeconds elapsedTotal : Nat) :
    Option Nat :=
  if durationSeconds ≤ elapsedTotal then none
  else
    let remainingDuration := durationSeconds - elapsedTotal
    let currentSegmentDuration := min segmentDuration remainingDuration
    some segmentDuration

end Capture

/-! ## GPU-aware dispatcher (scripts/orchestration/process_videos_orchestrator.py) -/

namespace Orchestrator

def TEMP_SCALE_UP_THRESHOLD : Int := 70

def GPU_UTIL_SCALE_UP_THRESHOLD : Int := 70

def MIN_MEMORY_FREE_GB : ℚ := 2

def SCALE_COOLDOWN_SECONDS : Int := 60

def TEMP_SCALE_DOWN_THRESHOLD : Int := 75

def GPU_UTIL_SCALE_DOWN_THRESHOLD : Int := 85

def TEMP_EMERGENCY_THRESHOLD : Int := 80

/-- One GPU sample as returned by DynamicGPUMonitor.get_metrics: temperature
in °C, utilization in %, free memory in GB.  The source reads floats; exact
rationals model the comparisons at the sampled values. -/
structure GPUMetrics where
  temperature : Int
  gpuUtilization : Int
  memoryFreeGB : ℚ

/-- DynamicGPUMonitor.should_scale_up: no metrics, at max workers, or within
the cooldown all refuse; otherwise all three GPU conditions must hold
(conservative scaling).  The memory test of the source is strict:
memory_free_gb > MIN_MEMORY_FREE_GB. -/
def should_scale_up (metrics : Option GPUMetrics) (currentWorkers maxWorkers : Nat)
    (now lastScaleTime : Int) : Bool :=
  match metrics with
  | none => false
  | some m =>
    if currentWorkers ≥ maxWorkers then false
    else if now - lastScaleTime < SCALE_COOLDOWN_SECONDS then false
    else
      decide (m.temperature < TEMP_SCALE_UP_THRESHOLD)
        && decide (m.gpuUtilization < GPU_UTIL_SCALE_UP_THRESHOLD)
        && decide (m.memoryFreeGB > MIN_MEMORY_FREE_GB)

/-- DynamicGPUMonitor.should_scale_down: any one condition suffices
(aggressive scaling), refused at the minimum worker count. -/
def should_scale_down (metrics : Option GPUMetrics) (currentWorkers minWorkers : Nat) :
    Bool :=
  match metrics with
  | none => false
  | some m =>
    if currentWorkers ≤ minWorkers then false
    else
      decide (m.temperature > TEMP_SCALE_DOWN_THRESHOLD)
        || decide (m.gpuUtilization > GPU_UTIL_SCALE_DOWN_THRESHOLD)
        || decide (m.memoryFreeGB < 1)

/-- DynamicGPUMonitor.is_emergency. -/
def is_emergency (metrics : Option GPUMetrics) : Bool :=
  match metrics with
  | none => false
  | some m => decide (m.temperature ≥ TEMP_EMERGENCY_THRESHOLD)

/-- The decision order of ProcessingQueue._gpu_monitoring_thread: emergency
first, then the scale-down check, then the scale-up check, else hold. -/
inductive ScaleAction
  | emergency
  | scaleDown
  | scaleUp
  | hold
deriving DecidableEq

def monitorDecision (metrics : Option GPUMetrics) (workers minW maxW : Nat)
    (now lastScaleTime : Int) : ScaleAction :=
  if is_emergency metrics then .emergency
  else if should_scale_down metrics workers minW then .scaleDown
  else if should_scale_up metrics workers maxW now lastScaleTime then .scaleUp
  else .hold

/-- The two counters ProcessingQueue.process_job updates after the analysis
runner exits. -/
structure QueueStats where
  jobsCompleted : Nat
  jobsFailed : Nat
deriving DecidableEq

/-- ProcessingQueue.process_job, from the runner's exit code: return code 0
logs SUCCESS, counts into jobs_completed and returns True; any non-zero
return code — the runner's "already processed" code 2 included — logs
FAILED, counts into jobs_failed and returns False. -/
def process_job_result (returncode : Int) (s : QueueStats) : Bool × QueueStats :=
  if returncode = 0 then
    (true, { s with jobsCompleted := s.jobsCompleted + 1 })
  else
    (false, { s with jobsFailed := s.jobsFailed + 1 })

/-- The duplicate-session guard of table_and_region_state_detection.py: when
a sessions row with the same (camera_id, video_file) already exists, the
runner exits with code 2 (documented in the source as "skipped, not an
error"); otherwise it continues processing (none). -/
def duplicateCheckExit (sessions : List (Nat × Nat)) (cameraId videoFile : Nat) :
    Option Int :=
  if (cameraId, videoFile) ∈ sessions then some 2 else none

/-- Per-file decision of discover_videos: no camera id in the filename skips;
a camera filter that excludes the camera skips; a date directory equal to
today skips ("may still be recording"); an unparsable date skips; an already
processed filename skips; anything else is emitted.  Dates are their eight
YYYYMMDD digits read as numbers, so numeric order coincides with the string
order of the date directories. -/
def discoverEmits (today : Nat) (cameraFilter : Option (List Nat))
    (processed : List Nat) (cameraId : Option Nat) (videoDate : Option Nat)
    (filename : Nat) : Bool :=
  match cameraId with
  | none => false
  | some cid =>
    let filteredOut : Bool :=
      match cameraFilter with
      | some flt => decide (cid ∉ flt)
      | none => false
    if filteredOut then false
    else if videoDate = some today then false
    else
      match videoDate with
      | none => false
      | some _ => decide (filename ∉ processed)

end Orchestrator

/-! ## Service controller (scripts/orchestration/surveillance_service.py) -/

namespace Service

/-- SurveillanceService.is_in_time_window (the processing-window test, hour
granularity): a same-day window is inclusive of end_hour (the source comment
says so); an overnight window is hour >= start or hour < end. -/
def is_in_time_window (startHour endHour currentHour : Nat) : Bool :=
  if startHour < endHour then
    decide (startHour ≤ currentHour) && decide (currentHour ≤ endHour)
  else
    decide (currentHour ≥ startHour) || decide (currentHour < endHour)

/-- One entry of CAPTURE_WINDOWS. -/
structure CaptureWindow where
  startHour : Nat
  startMinute : Nat
  endHour : Nat
  endMinute : Nat
deriving DecidableEq

/-- The membership test SurveillanceService.is_in_capture_window applies to
each window: minutes since midnight, half-open at the end. -/
def windowActive (w : CaptureWindow) (currentHour currentMinute : Nat) : Bool :=
  let currentTotal := currentHour * 60 + currentMinute
  let startTotal := w.startHour * 60 + w.startMinute
  let endTotal := w.endHour * 60 + w.endMinute
  decide (startTotal ≤ currentTotal) && decide (currentTotal < endTotal)

/-- SurveillanceService.is_in_capture_window: the first window containing the
current time, if any. -/
def is_in_capture_window (windows : List CaptureWindow) (h m : Nat) :
    Option CaptureWindow :=
  windows.find? (fun w => windowActive w h m)

/-- Result of os.kill(pid, 0): ok when the signal was delivered (the pid
names a live, signalable process), oserror when the call raised. -/
inductive Kill0Result
  | ok
  | oserror
deriving DecidableEq

/-- Outcome of the guard at the top of SurveillanceService.start. -/
inductive StartOutcome
  | alreadyRunning (pid : Nat)
  | launched (removedStalePidFile : Bool)
deriving DecidableEq

/-- The PID-file check of SurveillanceService.start: with an existing PID
file, signal 0 the recorded pid; on success print "already running" and
refuse; on OSError unlink the stale PID file and proceed to launch; with no
PID file just launch. -/
def startPidCheck (pidFile : Option Nat) (kill0 : Nat → Kill0Result) :
    StartOutcome :=
  match pidFile with
  | some oldPid =>
    match kill0 oldPid with
    | .ok => .alreadyRunning oldPid
    | .oserror => .launched true
  | none => .launched false

end Service

/-! ## Event buffer (scripts/database_sync/batch_db_writer.py) -/

namespace BatchWriter

/-- The state of a BatchDatabaseWriter: the configured batch size, the two
in-memory buffers, the history of committed transactions (one entry per
executemany-plus-commit, in order), and the statistics counters. -/
structure WriterState (α β : Type) where
  batchSize : Nat
  divisionBuffer : List α
  tableBuffer : List β
  committedDivision : List (List α)
  committedTable : List (List β)
  totalDivisionInserts : Nat
  totalTableInserts : Nat
  totalCommits : Nat

/-- BatchDatabaseWriter.flush_division_states: an empty buffer is a no-op;
otherwise the whole buffer is inserted and committed as one transaction, the
counters are updated, and the buffer is cleared. -/
def flush_division_states {α β : Type} (s : WriterState α β) : WriterState α β :=
  if s.divisionBuffer.isEmpty then s
  else
    { s with
      committedDivision := s.committedDivision ++ [s.divisionBuffer]
      totalDivisionInserts := s.totalDivisionInserts + s.divisionBuffer.length
      totalCommits := s.totalCommits + 1
      divisionBuffer := [] }

/-- BatchDatabaseWriter.flush_table_states. -/
def flush_table_states {α β : Type} (s : WriterState α β) : WriterState α β :=
  if s.tableBuffer.isEmpty then s
  else
    { s with
      committedTable := s.committedTable ++ [s.tableBuffer]
      totalTableInserts := s.totalTableInserts + s.tableBuffer.length
      totalCommits := s.totalCommits + 1
      tableBuffer := [] }

/-- BatchDatabaseWriter.add_division_state: append the row to the buffer and
auto-flush synchronously when the buffer has reached batch_size. -/
def add_division_state {α β : Type} (s : WriterState α β) (row : α) :
    WriterState α β :=
  let s2 := { s with divisionBuffer := s.divisionBuffer ++ [row] }
  if s2.divisionBuffer.length ≥ s2.batchSize then flush_division_states s2 else s2

/-- BatchDatabaseWriter.add_table_state. -/
def add_table_state {α β : Type} (s : WriterState α β) (row : β) :
    WriterState α β :=
  let s2 := { s with tableBuffer := s.tableBuffer ++ [row] }
  if s2.tableBuffer.length ≥ s2.batchSize then flush_table_states s2 else s2

/-- BatchDatabaseWriter.flush_all. -/
def flush_all {α β : Type} (s : WriterState α β) : WriterState α β :=
  flush_table_states (flush_division_states s)

end BatchWriter

end EyesOfSmartIce

namespace EyesOfSmartIce

open CloudSync in
/-- C1: in a replication run, local pruning deletes only event rows with
synced_to_cloud = 1 whose creation timestamp is older than the retention
period; a row with synced_to_cloud = 0 is never deleted, and no row younger
than retention is ever deleted, in both event tables. -/
theorem C1_cleanup_deletes_only_old_synced
    (now retentionHours : Int) (db : EventDB) (r : EventRow)
    (hdeleted :
      (r ∈ db.divisionStates ∧
        r ∉ (cleanup_synced_data now retentionHours db).divisionStates) ∨
      (r ∈ db.tableStates ∧
        r ∉ (cleanup_synced_data now retentionHours db).tableStates)) :
    r.syncedToCloud = true ∧ now - r.createdAt > retentionHours * 3600 := by
  rcases hdeleted with ⟨hin, hout⟩ | ⟨hin, hout⟩
  · exact cleanupTable_deleted now retentionHours db.divisionStates r hin hout
  · exact cleanupTable_deleted now retentionHours db.tableStates r hin hout

open CloudSync in
/-- Witness for C1 at a concrete database: the row with id 1, synced and
created at time 0, is pruned at now = 100000 with 24 h retention. -/
theorem C1_cleanup_deletes_only_old_synced_witness :
    (⟨1, true, 0⟩ : EventRow).syncedToCloud = true ∧
      (100000 : Int) - (⟨1, true, 0⟩ : EventRow).createdAt > 24 * 3600 :=
  C1_cleanup_deletes_only_old_synced 100000 24
    ⟨[⟨1, true, 0⟩], []⟩ ⟨1, true, 0⟩
    (Or.inl ⟨by decide, by decide⟩)

open CloudSync in
/-- C2: event rows are marked synced_to_cloud = 1 only after the cloud batch
insert containing them has succeeded; if a batch upload fails, every row of
that batch remains unmarked (its local state unchanged), and the replicator
still processes every batch (the error counter and upload total account for
all batches). -/
theorem C2_mark_synced_strictly_after_cloud_ack
    (cloud : List EventRow → Bool) (records tbl : List EventRow)
    (hnodup : (records.map EventRow.rowId).Nodup)
    (b : List EventRow) (hb : b ∈ toBatches BATCH_SIZE records)
    (hfail : cloud b = false) (r : EventRow) (hr : r ∈ b) (hrt : r ∈ tbl) :
    (∀ id ∈ (upload_in_batches cloud true records).markedIds,
        ∃ b2, b2 ∈ toBatches BATCH_SIZE records ∧ cloud b2 = true
          ∧ id ∈ b2.map EventRow.rowId)
    ∧ r.rowId ∉ (upload_in_batches cloud true records).markedIds
    ∧ r ∈ markSyncedRows (upload_in_batches cloud true records).markedIds tbl
    ∧ (upload_in_batches cloud true records).errors
        = ((toBatches BATCH_SIZE records).filter (fun x => !cloud x)).length
    ∧ (upload_in_batches cloud true records).totalUploaded
        = (((toBatches BATCH_SIZE records).filter cloud).map List.length).sum := by
  have hmarked : (upload_in_batches cloud true records).markedIds
      = (((toBatches BATCH_SIZE records).filter cloud).map
          (fun b2 => b2.map EventRow.rowId)).flatten := by
    unfold upload_in_batches
    rw [uploadFold_markedIds]
    rfl
  have hack : ∀ id ∈ (upload_in_batches cloud true records).markedIds,
      ∃ b2, b2 ∈ toBatches BATCH_SIZE records ∧ cloud b2 = true
        ∧ id ∈ b2.map EventRow.rowId := by
    intro id hid
    rw [hmarked] at hid
    rcases List.mem_flatten.mp hid with ⟨bl, hbl, hidbl⟩
    rcases List.mem_map.mp hbl with ⟨b2, hb2, rfl⟩
    rcases List.mem_filter.mp hb2 with ⟨hb2mem, hb2cloud⟩
    exact ⟨b2, hb2mem, hb2cloud, hidbl⟩
  have hnotmarked : r.rowId ∉ (upload_in_batches cloud true records).markedIds := by
    intro hmem
    rcases hack r.rowId hmem with ⟨b2, hb2mem, hb2cloud, hidb2⟩
    have hidb : r.rowId ∈ b.map EventRow.rowId := List.mem_map.mpr ⟨r, hr, rfl⟩
    have hbe : b = b2 := toBatches_mem_unique EventRow.rowId hnodup hb hb2mem hidb hidb2
    rw [← hbe, hfail] at hb2cloud
    exact Bool.false_ne_true hb2cloud
  refine ⟨hack, hnotmarked, ?_, ?_, ?_⟩
  · exact List.mem_map.mpr ⟨r, hrt, by simp [hnotmarked]⟩
  · unfold upload_in_batches
    rw [uploadFold_errors]
    simp
  · unfold upload_in_batches
    rw [uploadFold_total]
    simp

open CloudSync in
/-- Witness for C2 at a concrete run: one record, a cloud that rejects every
batch; the single batch fails, the row stays unmarked and unchanged. -/
theorem C2_mark_synced_strictly_after_cloud_ack_witness :
    (∀ id ∈ (upload_in_batches (fun _ => false) true [⟨1, false, 0⟩]).markedIds,
        ∃ b2, b2 ∈ toBatches BATCH_SIZE [(⟨1, false, 0⟩ : EventRow)]
          ∧ (fun _ => false) b2 = true ∧ id ∈ b2.map EventRow.rowId)
    ∧ (⟨1, false, 0⟩ : EventRow).rowId
        ∉ (upload_in_batches (fun _ => false) true [⟨1, false, 0⟩]).markedIds
    ∧ (⟨1, false, 0⟩ : EventRow)
        ∈ markSyncedRows
            (upload_in_batches (fun _ => false) true [⟨1, false, 0⟩]).markedIds
            [⟨1, false, 0⟩]
    ∧ (upload_in_batches (fun _ => false) true [⟨1, false, 0⟩]).errors
        = ((toBatches BATCH_SIZE [(⟨1, false, 0⟩ : EventRow)]).filter
            (fun x => !(fun _ => false) x)).length
    ∧ (upload_in_batches (fun _ => false) true [⟨1, false, 0⟩]).totalUploaded
        = (((toBatches BATCH_SIZE [(⟨1, false, 0⟩ : EventRow)]).filter
            (fun _ => false)).map List.length).sum :=
  C2_mark_synced_strictly_after_cloud_ack (fun _ => false)
    [⟨1, false, 0⟩] [⟨1, false, 0⟩] (by decide)
    [⟨1, false, 0⟩] (by decide) rfl ⟨1, false, 0⟩ (by decide) (by decide)

open CloudSync in
/-- Counterexample to C7 as stated: after a full replication run in which the
cloud accepted every batch, a second full run selects the same, already
replicated, session row again — the sessions query has no synced_to_cloud
filter — and even selects the division row again: the marking step raised
IndexError (its SELECT omits division_state_id), the error was caught by the
batch loop, and the row was left with synced_to_cloud = 0. -/
theorem C7_counterexample :
    ((sync_full (sync_full ⟨[⟨7, 0⟩], [⟨1, false, 0⟩]⟩).2).1).1 = [⟨7, 0⟩]
    ∧ ((sync_full (sync_full ⟨[⟨7, 0⟩], [⟨1, false, 0⟩]⟩).2).1).2 = [⟨1, false, 0⟩] := by
  decide

open CloudSync in
/-- C7 amended: only the two event-table queries (division_states,
table_states) restrict selection to synced_to_cloud = 0 rows (plus the
2-hour created_at cutoff in hourly mode); the sessions and videos queries
carry no synced_to_cloud condition and select every row passing the optional
cutoff, re-uploading them on every run.  Moreover both event-table SELECTs
omit the primary-key column that _mark_batch_synced reads, so the marking of
a (nonempty) batch always raises and is caught as a batch error: no event
row is ever marked synced, and the event tables are re-uploaded in full on
every run as well. -/
theorem C7_amended_selection (re : EventRow) (rs : SessionRow) (v now : Int)
    (cutoff : Option Int) (tbl : List EventRow) :
    (divisionStateSelected re cutoff = true ↔
        re.syncedToCloud = false ∧ ∀ c, cutoff = some c → c ≤ re.createdAt)
    ∧ (tableStateSelected re cutoff = true ↔
        re.syncedToCloud = false ∧ ∀ c, cutoff = some c → c ≤ re.createdAt)
    ∧ (sessionSelected rs cutoff = true ↔ ∀ c, cutoff = some c → c ≤ rs.createdAt)
    ∧ (videoSelected v cutoff = true ↔ ∀ c, cutoff = some c → c ≤ v)
    ∧ (divisionStateSelected re (some (hourlyCutoff now)) = true ↔
        re.syncedToCloud = false ∧ now - re.createdAt ≤ 2 * 3600)
    ∧ (∀ (x : EventRow) (xs : List EventRow),
        mark_batch_synced_division divisionSelectColumns (x :: xs) tbl
          = Except.error ())
    ∧ (∀ (x : EventRow) (xs : List EventRow),
        mark_batch_synced_table tableSelectColumns (x :: xs) tbl
          = Except.error ()) := by
  refine ⟨?_, ?_, ?_, ?_, ?_, ?_, ?_⟩
  · cases cutoff <;> simp [divisionStateSelected]
  · cases cutoff <;> simp [tableStateSelected]
  · cases cutoff <;> simp [sessionSelected]
  · cases cutoff <;> simp [videoSelected]
  · simp [divisionStateSelected, hourlyCutoff]
    intro _
    omega
  · intro x xs
    unfold mark_batch_synced_division
    rw [if_neg (by simp), if_neg (by decide)]
  · intro x xs
    unfold mark_batch_synced_table
    rw [if_neg (by simp), if_neg (by decide)]

open Capture in
/-- C3 evaluated at the failing input: with segment length 60 s and only 30 s
of session remaining, the recording loop spawns a subprocess whose -t
argument is 60 — the computed min(L, D_remaining) = 30 is produced by no
path, so the final segment is not capped at the remaining duration. -/
theorem C3_final_segment_not_capped :
    captureIterationTimeLimit 60 30 0 = some 60
    ∧ (ffmpeg_cmd "tcp" "rtsp://cam" 60 "out.mp4").getD 18 "" = toString 60
    ∧ min 60 (30 - 0) = 30
    ∧ (60 : Nat) ≠ 30 := by
  refine ⟨rfl, rfl, rfl, by decide⟩

open Orchestrator in
/-- C4 evaluated at the failing input: the duplicate-session guard makes the
runner exit with code 2, and the dispatcher's process_job counts that exit
code as a failure (returns False and increments jobs_failed) instead of
treating it as a non-error skip. -/
theorem C4_exit2_counted_as_failure :
    duplicateCheckExit [(35, 101)] 35 101 = some 2
    ∧ process_job_result 2 ⟨0, 0⟩ = (false, ⟨0, 1⟩) := by
  refine ⟨rfl, ?_⟩
  simp [process_job_result]

open Service in
/-- Counterexample to C5 as stated: at local time 23:30 with the processing
window (start_hour 0, end_hour 23), the code reports the window active,
although half-open membership start <= now < end fails (1410 minutes is not
below 23 * 60 = 1380). -/
theorem C5_counterexample :
    is_in_time_window 0 23 23 = true
    ∧ ¬ (23 * 60 + 30 < 23 * 60) := by
  refine ⟨rfl, by decide⟩

open Service in
/-- C5 amended: the capture windows are half-open on minutes since local
midnight (start <= now < end), but the processing window test is
hour-granular: a same-day window is inclusive of its end hour, and an
overnight window tests hour >= start or hour < end. -/
theorem C5_window_membership (w : CaptureWindow) (h m sH eH cH : Nat) :
    (windowActive w h m = true ↔
      w.startHour * 60 + w.startMinute ≤ h * 60 + m
        ∧ h * 60 + m < w.endHour * 60 + w.endMinute)
    ∧ (is_in_time_window sH eH cH = true ↔
        (if sH < eH then sH ≤ cH ∧ cH ≤ eH else sH ≤ cH ∨ cH < eH)) := by
  constructor
  · simp [windowActive]
  · unfold is_in_time_window
    split_ifs <;> simp

open Orchestrator in
/-- Counterexample to C6 as stated: a sample with temperature 65 °C,
utilization 50 %, free memory exactly 2 GB, the cooldown elapsed (60 s since
the last scaling action) and 1 < 4 workers satisfies every condition of the
claim (which asks free >= 2 GB), yet should_scale_up refuses: the source
requires memory_free_gb strictly above 2. -/
theorem C6_counterexample :
    should_scale_up (some ⟨65, 50, 2⟩) 1 4 60 0 = false
    ∧ (65 : Int) < 70 ∧ (50 : Int) < 70 ∧ (2 : ℚ) ≥ 2
    ∧ (60 : Int) - 0 ≥ 60 ∧ (1 : Nat) < 4 := by
  refine ⟨by decide, by decide, by decide, by norm_num, by decide, by decide⟩

open Orchestrator in
/-- C6 amended: given a sample, SCALE_UP is decided exactly when temperature
< 70, utilization < 70, free memory strictly greater than 2 GB, at least
60 s have elapsed since the last scaling action, and the worker count is
below the maximum. -/
theorem C6_scale_up_conditions (m : GPUMetrics) (w maxW : Nat) (now last : Int) :
    should_scale_up (some m) w maxW now last = true ↔
      (m.temperature < 70 ∧ m.gpuUtilization < 70 ∧ m.memoryFreeGB > 2
        ∧ now - last ≥ 60 ∧ w < maxW) := by
  simp only [should_scale_up]
  by_cases h1 : w ≥ maxW
  · rw [if_pos h1]
    simp only [Bool.false_eq_true, false_iff]
    rintro ⟨-, -, -, -, hlt⟩
    omega
  · by_cases h2 : now - last < SCALE_COOLDOWN_SECONDS
    · rw [if_neg h1, if_pos h2]
      unfold SCALE_COOLDOWN_SECONDS at h2
      simp only [Bool.false_eq_true, false_iff]
      rintro ⟨-, -, -, h60, -⟩
      omega
    · rw [if_neg h1, if_neg h2]
      unfold SCALE_COOLDOWN_SECONDS at h2
      unfold TEMP_SCALE_UP_THRESHOLD GPU_UTIL_SCALE_UP_THRESHOLD MIN_MEMORY_FREE_GB
      simp only [Bool.and_eq_true, decide_eq_true_eq]
      constructor
      · rintro ⟨⟨ht, hu⟩, hm⟩
        exact ⟨ht, hu, hm, by omega, by omega⟩
      · rintro ⟨ht, hu, hm, -, -⟩
        exact ⟨⟨ht, hu⟩, hm⟩

open Orchestrator in
/-- C8 evaluated at the failing input: on 2026-10-12, a segment under the
future date directory 20991231 passes every filter of discover_videos and is
emitted, although its date is not strictly earlier than today; a segment
dated exactly today is skipped, as the claim says. -/
theorem C8_future_dated_segment_emitted :
    discoverEmits 20261012 none [] (some 35) (some 20991231) 1 = true
    ∧ ¬ (20991231 < 20261012)
    ∧ discoverEmits 20261012 none [] (some 35) (some 20261012) 1 = false := by
  refine ⟨by decide, by decide, by decide⟩

open Service in
/-- C10: if at start the PID file exists but signaling the recorded pid with
signal 0 raises, start deletes the stale PID file and proceeds to launch;
and start refuses to launch only when signal 0 on the recorded pid
succeeds, i.e. the pid belongs to a live process. -/
theorem C10_start_pidfile_guard (pidFile : Option Nat)
    (kill0 : Nat → Kill0Result) :
    (∀ p, pidFile = some p → kill0 p = Kill0Result.oserror →
        startPidCheck pidFile kill0 = StartOutcome.launched true)
    ∧ (∀ q, startPidCheck pidFile kill0 = StartOutcome.alreadyRunning q →
        pidFile = some q ∧ kill0 q = Kill0Result.ok) := by
  constructor
  · rintro p rfl hk
    simp [startPidCheck, hk]
  · intro q hq
    match hp : pidFile with
    | none =>
      simp [startPidCheck] at hq
    | some oldPid =>
      simp only [startPidCheck] at hq
      cases hk : kill0 oldPid with
      | ok =>
        rw [hk] at hq
        simp only [StartOutcome.alreadyRunning.injEq] at hq
        subst hq
        exact ⟨rfl, hk⟩
      | oserror =>
        rw [hk] at hq
        simp at hq

namespace BatchWriter

theorem add_division_state_eq_flush {α β : Type} (s : WriterState α β) (row : α)
    (h : s.batchSize ≤ s.divisionBuffer.length + 1) :
    add_division_state s row
      = { s with
          divisionBuffer := []
          committedDivision := s.committedDivision ++ [s.divisionBuffer ++ [row]]
          totalDivisionInserts :=
            s.totalDivisionInserts + (s.divisionBuffer ++ [row]).length
          totalCommits := s.totalCommits + 1 } := by
  unfold add_division_state flush_division_states
  dsimp only
  split
  · split
    · rename_i h2
      simp at h2
    · rfl
  · rename_i h2
    exfalso
    apply h2
    simp only [List.length_append, List.length_cons, List.length_nil, ge_iff_le]
    omega

theorem add_division_state_eq_append {α β : Type} (s : WriterState α β) (row : α)
    (h : s.divisionBuffer.length + 1 < s.batchSize) :
    add_division_state s row
      = { s with divisionBuffer := s.divisionBuffer ++ [row] } := by
  unfold add_division_state
  dsimp only
  split
  · rename_i h2
    exfalso
    simp only [List.length_append, List.length_cons, List.length_nil, ge_iff_le] at h2
    omega
  · rfl

theorem flush_division_states_eq {α β : Type} (s : WriterState α β)
    (h : s.divisionBuffer ≠ []) :
    flush_division_states s
      = { s with
          divisionBuffer := []
          committedDivision := s.committedDivision ++ [s.divisionBuffer]
          totalDivisionInserts := s.totalDivisionInserts + s.divisionBuffer.length
          totalCommits := s.totalCommits + 1 } := by
  unfold flush_division_states
  split
  · rename_i h2
    exact absurd (List.isEmpty_iff.mp h2) h
  · rfl

theorem flush_division_states_empty {α β : Type} (s : WriterState α β)
    (h : s.divisionBuffer = []) : flush_division_states s = s := by
  unfold flush_division_states
  split
  · rfl
  · rename_i h2
    exact absurd (List.isEmpty_iff.mpr h) (by simpa using h2)

theorem add_table_state_eq_flush {α β : Type} (s : WriterState α β) (row : β)
    (h : s.batchSize ≤ s.tableBuffer.length + 1) :
    add_table_state s row
      = { s with
          tableBuffer := []
          committedTable := s.committedTable ++ [s.tableBuffer ++ [row]]
          totalTableInserts := s.totalTableInserts + (s.tableBuffer ++ [row]).length
          totalCommits := s.totalCommits + 1 } := by
  unfold add_table_state flush_table_states
  dsimp only
  split
  · split
    · rename_i h2
      simp at h2
    · rfl
  · rename_i h2
    exfalso
    apply h2
    simp only [List.length_append, List.length_cons, List.length_nil, ge_iff_le]
    omega

theorem add_table_state_eq_append {α β : Type} (s : WriterState α β) (row : β)
    (h : s.tableBuffer.length + 1 < s.batchSize) :
    add_table_state s row
      = { s with tableBuffer := s.tableBuffer ++ [row] } := by
  unfold add_table_state
  dsimp only
  split
  · rename_i h2
    exfalso
    simp only [List.length_append, List.length_cons, List.length_nil, ge_iff_le] at h2
    omega
  · rfl

theorem flush_table_states_eq {α β : Type} (s : WriterState α β)
    (h : s.tableBuffer ≠ []) :
    flush_table_states s
      = { s with
          tableBuffer := []
          committedTable := s.committedTable ++ [s.tableBuffer]
          totalTableInserts := s.totalTableInserts + s.tableBuffer.length
          totalCommits := s.totalCommits + 1 } := by
  unfold flush_table_states
  split
  · rename_i h2
    exact absurd (List.isEmpty_iff.mp h2) h
  · rfl

/-- The division-buffer half of the batch-atomicity claim. -/
theorem add_division_spec {α β : Type} (s : WriterState α β) (row : α)
    (hbs : 1 ≤ s.batchSize) (hinv : s.divisionBuffer.length < s.batchSize) :
    (s.divisionBuffer.length + 1 = s.batchSize →
        (add_division_state s row).divisionBuffer = []
        ∧ (add_division_state s row).committedDivision
            = s.committedDivision ++ [s.divisionBuffer ++ [row]])
    ∧ (add_division_state s row).divisionBuffer.length < s.batchSize
    ∧ (∀ t ∈ (add_division_state s row).committedDivision,
        t ∈ s.committedDivision ∨ (t ≠ [] ∧ t.length ≤ s.batchSize))
    ∧ (add_division_state s row).committedDivision.flatten
        ++ (add_division_state s row).divisionBuffer
        = s.committedDivision.flatten ++ s.divisionBuffer ++ [row]
    ∧ (∀ t ∈ (flush_division_states s).committedDivision,
        t ∈ s.committedDivision ∨ (t ≠ [] ∧ t.length ≤ s.batchSize)) := by
  have hflush : ∀ t ∈ (flush_division_states s).committedDivision,
      t ∈ s.committedDivision ∨ (t ≠ [] ∧ t.length ≤ s.batchSize) := by
    by_cases hemp : s.divisionBuffer = []
    · rw [flush_division_states_empty s hemp]
      exact fun t ht => Or.inl ht
    · rw [flush_division_states_eq s hemp]
      intro t ht
      rcases List.mem_append.mp ht with ht | ht
      · exact Or.inl ht
      · rcases List.mem_singleton.mp ht with rfl
        exact Or.inr ⟨hemp, le_of_lt hinv⟩
  by_cases htrig : s.batchSize ≤ s.divisionBuffer.length + 1
  · rw [add_division_state_eq_flush s row htrig]
    refine ⟨fun _ => ⟨rfl, rfl⟩, by simpa using hbs, ?_, ?_, hflush⟩
    · intro t ht
      rcases List.mem_append.mp ht with ht | ht
      · exact Or.inl ht
      · rcases List.mem_singleton.mp ht with rfl
        refine Or.inr ⟨by simp, ?_⟩
        simp only [List.length_append, List.length_cons, List.length_nil]
        omega
    · simp [List.flatten_append]
  · have hlt : s.divisionBuffer.length + 1 < s.batchSize := by omega
    rw [add_division_state_eq_append s row hlt]
    refine ⟨fun habs => absurd habs (by omega), ?_, ?_, ?_, hflush⟩
    · simp only [List.length_append, List.length_cons, List.length_nil]
      omega
    · exact fun t ht => Or.inl ht
    · simp [List.append_assoc]

/-- The table-buffer half of the batch-atomicity claim. -/
theorem add_table_spec {α β : Type} (s : WriterState α β) (row : β)
    (hbs : 1 ≤ s.batchSize) (hinv : s.tableBuffer.length < s.batchSize) :
    (s.tableBuffer.length + 1 = s.batchSize →
        (add_table_state s row).tableBuffer = []
        ∧ (add_table_state s row).committedTable
            = s.committedTable ++ [s.tableBuffer ++ [row]])
    ∧ (add_table_state s row).tableBuffer.length < s.batchSize
    ∧ (∀ t ∈ (add_table_state s row).committedTable,
        t ∈ s.committedTable ∨ (t ≠ [] ∧ t.length ≤ s.batchSize))
    ∧ (add_table_state s row).committedTable.flatten
        ++ (add_table_state s row).tableBuffer
        = s.committedTable.flatten ++ s.tableBuffer ++ [row]
    ∧ (∀ t ∈ (flush_table_states s).committedTable,
        t ∈ s.committedTable ∨ (t ≠ [] ∧ t.length ≤ s.batchSize)) := by
  have hflush : ∀ t ∈ (flush_table_states s).committedTable,
      t ∈ s.committedTable ∨ (t ≠ [] ∧ t.length ≤ s.batchSize) := by
    by_cases hemp : s.tableBuffer = []
    · unfold flush_table_states
      rw [if_pos (List.isEmpty_iff.mpr hemp)]
      exact fun t ht => Or.inl ht
    · rw [flush_table_states_eq s hemp]
      intro t ht
      rcases List.mem_append.mp ht with ht | ht
      · exact Or.inl ht
      · rcases List.mem_singleton.mp ht with rfl
        exact Or.inr ⟨hemp, le_of_lt hinv⟩
  by_cases htrig : s.batchSize ≤ s.tableBuffer.length + 1
  · rw [add_table_state_eq_flush s row htrig]
    refine ⟨fun _ => ⟨rfl, rfl⟩, by simpa using hbs, ?_, ?_, hflush⟩
    · intro t ht
      rcases List.mem_append.mp ht with ht | ht
      · exact Or.inl ht
      · rcases List.mem_singleton.mp ht with rfl
        refine Or.inr ⟨by simp, ?_⟩
        simp only [List.length_append, List.length_cons, List.length_nil]
        omega
    · simp [List.flatten_append]
  · have hlt : s.tableBuffer.length + 1 < s.batchSize := by omega
    rw [add_table_state_eq_append s row hlt]
    refine ⟨fun habs => absurd habs (by omega), ?_, ?_, ?_, hflush⟩
    · simp only [List.length_append, List.length_cons, List.length_nil]
      omega
    · exact fun t ht => Or.inl ht
    · simp [List.append_assoc]

end BatchWriter

open BatchWriter in
/-- C9: for each event buffer, an enqueue that brings the buffer to
batch_size triggers a synchronous flush within the producer's call (the
buffer is committed as one transaction and cleared before add returns);
every transaction ever committed is non-empty and holds at most batch_size
rows; and no enqueued row is dropped — the committed rows followed by the
pending buffer always equal the rows enqueued so far, in order. -/
theorem C9_buffer_flush_and_batch_atomicity {α β : Type} (s : WriterState α β)
    (rowD : α) (rowT : β)
    (hbs : 1 ≤ s.batchSize)
    (hinvD : s.divisionBuffer.length < s.batchSize)
    (hinvT : s.tableBuffer.length < s.batchSize) :
    ((s.divisionBuffer.length + 1 = s.batchSize →
        (add_division_state s rowD).divisionBuffer = []
        ∧ (add_division_state s rowD).committedDivision
            = s.committedDivision ++ [s.divisionBuffer ++ [rowD]])
      ∧ (add_division_state s rowD).divisionBuffer.length < s.batchSize
      ∧ (∀ t ∈ (add_division_state s rowD).committedDivision,
          t ∈ s.committedDivision ∨ (t ≠ [] ∧ t.length ≤ s.batchSize))
      ∧ (add_division_state s rowD).committedDivision.flatten
          ++ (add_division_state s rowD).divisionBuffer
          = s.committedDivision.flatten ++ s.divisionBuffer ++ [rowD]
      ∧ (∀ t ∈ (flush_division_states s).committedDivision,
          t ∈ s.committedDivision ∨ (t ≠ [] ∧ t.length ≤ s.batchSize)))
    ∧ ((s.tableBuffer.length + 1 = s.batchSize →
        (add_table_state s rowT).tableBuffer = []
        ∧ (add_table_state s rowT).committedTable
            = s.committedTable ++ [s.tableBuffer ++ [rowT]])
      ∧ (add_table_state s rowT).tableBuffer.length < s.batchSize
      ∧ (∀ t ∈ (add_table_state s rowT).committedTable,
          t ∈ s.committedTable ∨ (t ≠ [] ∧ t.length ≤ s.batchSize))
      ∧ (add_table_state s rowT).committedTable.flatten
          ++ (add_table_state s rowT).tableBuffer
          = s.committedTable.flatten ++ s.tableBuffer ++ [rowT]
      ∧ (∀ t ∈ (flush_table_states s).committedTable,
          t ∈ s.committedTable ∨ (t ≠ [] ∧ t.length ≤ s.batchSize))) :=
  ⟨add_division_spec s rowD hbs hinvD, add_table_spec s rowT hbs hinvT⟩

open BatchWriter in
/-- Witness for C9 at a writer with batch_size 1 and empty buffers: each
enqueue reaches capacity immediately and is flushed within the call. -/
theorem C9_buffer_flush_and_batch_atomicity_witness :
    ((([] : List Nat).length + 1 = 1 →
        (add_division_state (⟨1, [], [], [], [], 0, 0, 0⟩ : WriterState Nat Nat) 5).divisionBuffer = []
        ∧ (add_division_state (⟨1, [], [], [], [], 0, 0, 0⟩ : WriterState Nat Nat) 5).committedDivision
            = [] ++ [[] ++ [5]])
      ∧ (add_division_state (⟨1, [], [], [], [], 0, 0, 0⟩ : WriterState Nat Nat) 5).divisionBuffer.length < 1
      ∧ (∀ t ∈ (add_division_state (⟨1, [], [], [], [], 0, 0, 0⟩ : WriterState Nat Nat) 5).committedDivision,
          t ∈ ([] : List (List Nat)) ∨ (t ≠ [] ∧ t.length ≤ 1))
      ∧ (add_division_state (⟨1, [], [], [], [], 0, 0, 0⟩ : WriterState Nat Nat) 5).committedDivision.flatten
          ++ (add_division_state (⟨1, [], [], [], [], 0, 0, 0⟩ : WriterState Nat Nat) 5).divisionBuffer
          = ([] : List (List Nat)).flatten ++ [] ++ [5]
      ∧ (∀ t ∈ (flush_division_states (⟨1, [], [], [], [], 0, 0, 0⟩ : WriterState Nat Nat)).committedDivision,
          t ∈ ([] : List (List Nat)) ∨ (t ≠ [] ∧ t.length ≤ 1)))
    ∧ ((([] : List Nat).length + 1 = 1 →
        (add_table_state (⟨1, [], [], [], [], 0, 0, 0⟩ : WriterState Nat Nat) 7).tableBuffer = []
        ∧ (add_table_state (⟨1, [], [], [], [], 0, 0, 0⟩ : WriterState Nat Nat) 7).committedTable
            = [] ++ [[] ++ [7]])
      ∧ (add_table_state (⟨1, [], [], [], [], 0, 0, 0⟩ : WriterState Nat Nat) 7).tableBuffer.length < 1
      ∧ (∀ t ∈ (add_table_state (⟨1, [], [], [], [], 0, 0, 0⟩ : WriterState Nat Nat) 7).committedTable,
          t ∈ ([] : List (List Nat)) ∨ (t ≠ [] ∧ t.length ≤ 1))
      ∧ (add_table_state (⟨1, [], [], [], [], 0, 0, 0⟩ : WriterState Nat Nat) 7).committedTable.flatten
          ++ (add_table_state (⟨1, [], [], [], [], 0, 0, 0⟩ : WriterState Nat Nat) 7).tableBuffer
          = ([] : List (List Nat)).flatten ++ [] ++ [7]
      ∧ (∀ t ∈ (flush_table_states (⟨1, [], [], [], [], 0, 0, 0⟩ : WriterState Nat Nat)).committedTable,
          t ∈ ([] : List (List Nat)) ∨ (t ≠ [] ∧ t.length ≤ 1))) :=
  C9_buffer_flush_and_batch_atomicity (⟨1, [], [], [], [], 0, 0, 0⟩ : WriterState Nat Nat)
    5 7 (by decide) (by decide) (by decide)

end EyesOfSmartIce
